import Mathlib

/- Verification of the IntelliScan resume analyzer (src/app.py): a shallow
embedding of its skill catalog, skill matcher, job-description matcher,
resume-format checker, text extractor, report generator and the per-file
interaction loop, followed by theorems settling the specification claims. -/

/-- A token produced by the external spaCy pipeline, carrying its surface
text (token.text) and its part-of-speech tag (the field written token.pos_
in Python). The pipeline itself is a third-party library, so it is
abstracted as a function from input text to a token list. -/
structure SpacyToken where
  text : String
  pos : String
deriving DecidableEq

/-- An abstract linguistic tagger standing for the external spaCy model
loaded as nlp in src/app.py. -/
def Tagger := String → List SpacyToken

/-- The fixed role-to-skill-set catalog predefined_skills of src/app.py,
with the dict lookup predefined_skills.get(job_role, set()) built in: an
unknown role yields the empty set. -/
def predefined_skills (role : String) : Finset String :=
  if role = "Software Engineer" then
    {"Python", "Java", "C++", "Machine Learning", "Git", "SQL", "Docker",
     "Kubernetes", "JavaScript", "React", "Node.js"}
  else if role = "Data Scientist" then
    {"Pandas", "NumPy", "Deep Learning", "Statistics", "Python", "R",
     "TensorFlow", "PyTorch", "SQL", "Data Visualization"}
  else if role = "Marketing" then
    {"SEO", "Google Ads", "Content Writing", "Social Media", "Branding",
     "Google Analytics", "Copywriting", "Email Marketing"}
  else if role = "UI/UX Designer" then
    {"Figma", "Adobe XD", "Wireframing", "User Research", "Sketch",
     "Prototyping", "Design Thinking"}
  else if role = "Cybersecurity Analyst" then
    {"Network Security", "Ethical Hacking", "Cryptography", "Firewalls",
     "Incident Response", "Penetration Testing"}
  else ∅

/-- The keys of the catalog dict, in insertion order. -/
def catalogRoles : List String :=
  ["Software Engineer", "Data Scientist", "Marketing", "UI/UX Designer",
   "Cybersecurity Analyst"]

/-- extract_skills_nlp of src/app.py: the set of surface texts of the
tagger's tokens whose part-of-speech tag is NOUN or PROPN. -/
def extract_skills_nlp (nlp : Tagger) (text : String) : Finset String :=
  (((nlp text).filter (fun t => t.pos == "NOUN" || t.pos == "PROPN")).map
    SpacyToken.text).toFinset

/-- The triple returned by match_skills: matched skills, missing skills and
the match percentage. -/
structure SkillMatch where
  matched : Finset String
  missing : Finset String
  pct : ℚ
deriving DecidableEq

/-- match_skills of src/app.py. The percentage divides by the catalog size,
guarded by Python truthiness of the skill set (nonemptiness). -/
def match_skills (nlp : Tagger) (resume_text job_role : String) : SkillMatch :=
  let extracted_skills := extract_skills_nlp nlp resume_text
  let job_skills := predefined_skills job_role
  let matched_skills := extracted_skills ∩ job_skills
  let missing_skills := job_skills \ matched_skills
  let match_percentage : ℚ :=
    if job_skills.Nonempty then
      ((matched_skills.card : ℚ) / (job_skills.card : ℚ)) * 100
    else 0
  ⟨matched_skills, missing_skills, match_percentage⟩

/-- Python str.lower(), character by character. The concrete texts in this
development are ASCII, where this agrees with Python. -/
def pyLower (s : String) : String :=
  String.mk (s.data.map Char.toLower)

/-- Python str.split() with no separator: split on maximal whitespace runs,
producing no empty fragments. -/
def pySplitAux : List Char → List Char → List String
  | [], acc => if acc = [] then [] else [String.mk acc.reverse]
  | c :: cs, acc =>
    if c.isWhitespace then
      if acc = [] then pySplitAux cs []
      else String.mk acc.reverse :: pySplitAux cs []
    else pySplitAux cs (c :: acc)

/-- Python str.split() with no separator, on a string. -/
def pySplit (s : String) : List String :=
  pySplitAux s.data []

/-- job_match_percentage of src/app.py: lower-case both texts, take the
word sets, and divide the intersection size by the job-description word
count, or 0 when the job-description word set is empty. -/
def job_match_percentage (resume_text job_description : String) : ℚ :=
  let resume_words := (pySplit (pyLower resume_text)).toFinset
  let job_words := (pySplit (pyLower job_description)).toFinset
  let match_count := (resume_words ∩ job_words).card
  if job_words.Nonempty then
    ((match_count : ℚ) / (job_words.card : ℚ)) * 100
  else 0

/-- Python substring membership sub in s, as list infix on the characters. -/
def strContains (s sub : String) : Bool :=
  decide (sub.data <:+: s.data)

/-- The fixed sections dict of check_resume_format, in insertion order. -/
def resumeSections : List (String × List String) :=
  [("Education", ["education", "degree", "bachelor", "master", "university"]),
   ("Experience", ["experience", "internship", "company", "work"]),
   ("Skills", ["skills", "technologies", "expertise"]),
   ("Certifications", ["certification", "course", "training"]),
   ("Projects", ["projects", "portfolio", "github"])]

/-- check_resume_format of src/app.py: the names of the sections none of
whose keywords occur in the lower-cased resume text, in catalog order. -/
def check_resume_format (resume_text : String) : List String :=
  (resumeSections.filter
    (fun p => !(p.2.any (fun keyword => strContains (pyLower resume_text) keyword)))).map
    Prod.fst

/-- An uploaded file: its name and its binary content, the latter abstract
bytes consumed only by the external parsers. -/
structure UploadedFile where
  name : String
  content : List Nat

/-- The extension component of Python os.path.splitext for a bare file
name: the suffix starting at the last dot that has some non-dot character
before it, or empty when there is no such dot. -/
def splitextExt (name : String) : String :=
  let cs := name.data
  match ((List.range cs.length).filter
      (fun i => (cs.getD i ' ' == '.') &&
        ((List.range i).any (fun j => cs.getD j ' ' != '.')))).getLast? with
  | some i => String.mk (cs.drop i)
  | none => ""

/-- extract_text of src/app.py. The third-party parsers are abstracted:
pdfPages stands for pdfplumber's per-page text extraction (pages whose
extracted text is falsy are skipped before joining with newlines) and
docxParas for python-docx's paragraph texts (joined with newlines). An
extension other than .pdf or .docx, compared after lower-casing, yields
None. -/
def extract_text (pdfPages docxParas : List Nat → List String)
    (f : UploadedFile) : Option String :=
  let file_extension := pyLower (splitextExt f.name)
  if file_extension = ".pdf" then
    some (String.intercalate "\n" ((pdfPages f.content).filter (fun t => t != "")))
  else if file_extension = ".docx" then
    some (String.intercalate "\n" (docxParas f.content))
  else none

/-- The per-file analysis record assembled by the interaction loop. -/
structure AnalysisResult where
  matched : Finset String
  missing : Finset String
  skillScore : ℚ
  jobScore : ℚ
  missingSections : List String
deriving DecidableEq

/-- One iteration of the streamlit loop of src/app.py (lines 104-134): a
file whose extracted text is falsy (None or empty) produces no analysis;
otherwise the three analyses are run and recorded. -/
def process_file (pdfPages docxParas : List Nat → List String) (nlp : Tagger)
    (job_description job_role : String) (f : UploadedFile) :
    Option AnalysisResult :=
  match extract_text pdfPages docxParas f with
  | none => none
  | some resume_text =>
    if resume_text = "" then none
    else
      let sm := match_skills nlp resume_text job_role
      some ⟨sm.matched, sm.missing, sm.pct,
        job_match_percentage resume_text job_description,
        check_resume_format resume_text⟩

/-- Model of Python two-decimal float formatting for the nonnegative
scores this program produces: round to the nearest hundredth and print
with exactly two fractional digits. -/
def formatTwo (q : ℚ) : String :=
  let n : Nat := (⌊q * 100 + 1 / 2⌋ : ℤ).toNat
  let frac := n % 100
  toString (n / 100) ++ "." ++ (if frac < 10 then "0" else "") ++ toString frac

/-- The comma-joined rendering used by generate_pdf, with the literal
string None substituted for an empty collection. -/
def joinOrNone (xs : List String) : String :=
  if xs = [] then "None" else String.intercalate ", " xs

/-- generate_pdf of src/app.py, with the external FPDF renderer abstracted
to the ordered sequence of text cells it is handed. The collections arrive
in the iteration order of the Python runtime, modelled as lists. -/
def generate_pdf (job_role : String) (skill_match_score job_match_score : ℚ)
    (matched_skills missing_skills missing_sections : List String) :
    List String :=
  ["IntelliScan Resume Analysis Report",
   "Job Role: " ++ job_role,
   "Skill Match Score: " ++ formatTwo skill_match_score ++ "%",
   "Job Match Score: " ++ formatTwo job_match_score ++ "%",
   "Matched Skills:", joinOrNone matched_skills,
   "Missing Skills:", joinOrNone missing_skills,
   "Missing Resume Sections:", joinOrNone missing_sections]

/-- The byte stream handed to the download button, modelling the latin-1
encoding of pdf.output as the code points of the rendered cell texts, each
cell terminated by a line feed. -/
def generate_pdf_bytes (job_role : String)
    (skill_match_score job_match_score : ℚ)
    (matched_skills missing_skills missing_sections : List String) :
    List Nat :=
  (generate_pdf job_role skill_match_score job_match_score matched_skills
    missing_skills missing_sections).flatMap
    (fun line => line.data.map Char.toNat ++ [10])

/- Spec-side definitions, for the refinement claims: these restate the
matcher formulas in the words of sections 4.2 and 4.3 of the spec, to be
compared with the definitions embedded from the code above. -/

/-- The Skill Matcher as the spec words it: matched is the tagger token set
intersected with the role's catalog skill set, missing is the catalog
skill set minus matched, and the score is the matched count over the total
role-skill count times 100, or 0 when the role has zero catalog skills. -/
def skillMatcherSpec (nlp : Tagger) (resume_text job_role : String) :
    SkillMatch :=
  let tokens := extract_skills_nlp nlp resume_text
  let catalog := predefined_skills job_role
  let matched := tokens ∩ catalog
  let missing := catalog \ matched
  let score : ℚ :=
    if catalog.card = 0 then 0
    else ((matched.card : ℚ) / (catalog.card : ℚ)) * 100
  ⟨matched, missing, score⟩

/-- The Job-Description Matcher as the spec words it: lower-case both
texts, split on whitespace into word sets, and score the intersection size
over the job-description word count times 100, 0 for an empty
job-description word set. -/
def jobMatcherSpec (resume_text job_description : String) : ℚ :=
  let resume_words := (pySplit (pyLower resume_text)).toFinset
  let job_words := (pySplit (pyLower job_description)).toFinset
  if job_words.card = 0 then 0
  else (((resume_words ∩ job_words).card : ℚ) / (job_words.card : ℚ)) * 100

/-- C1: for every resume text and every role, the Skill Matcher returns
matched = tagger tokens intersected with the role's catalog skill set,
missing = the catalog skill set minus matched, and score = matched count
over catalog size times 100, with score 0 when the catalog skill set is
empty. -/
theorem skill_matcher_meets_spec (nlp : Tagger) (resume_text job_role : String) :
    match_skills nlp resume_text job_role = skillMatcherSpec nlp resume_text job_role := by
  by_cases h : predefined_skills job_role = ∅ <;>
    simp [match_skills, skillMatcherSpec, h, Finset.nonempty_iff_ne_empty,
      Finset.card_eq_zero]

/-- C2: for every resume text and every job-description text, the
Job-Description Matcher lower-cases both texts, splits on whitespace into
word sets, and returns the intersection size over the job-description word
count times 100, returning 0 when the job-description word set is empty. -/
theorem job_matcher_meets_spec (resume_text job_description : String) :
    job_match_percentage resume_text job_description =
      jobMatcherSpec resume_text job_description := by
  by_cases h : (pySplit (pyLower job_description)).toFinset = ∅ <;>
    simp [job_match_percentage, jobMatcherSpec, h, Finset.nonempty_iff_ne_empty,
      Finset.card_eq_zero]

/-- C3: a section category is reported missing exactly when none of its
keywords occurs as a substring of the lower-cased resume text; the result
is a sublist of the category names in catalog order; and a resume text
containing no keyword of any category yields all five names in catalog
order. -/
theorem format_checker_missing_sections (resume_text : String) :
    (∀ name, name ∈ check_resume_format resume_text ↔
      ∃ kws, (name, kws) ∈ resumeSections ∧
        ∀ k ∈ kws, ¬ (k.data <:+: (pyLower resume_text).data)) ∧
    List.Sublist (check_resume_format resume_text) (resumeSections.map Prod.fst) ∧
    ((∀ p ∈ resumeSections,
        ∀ k ∈ p.2, ¬ (k.data <:+: (pyLower resume_text).data)) →
      check_resume_format resume_text =
        ["Education", "Experience", "Skills", "Certifications", "Projects"]) := by
  refine ⟨?_, ?_, ?_⟩
  · intro name
    constructor
    · rintro h
      simp only [check_resume_format, List.mem_map, List.mem_filter] at h
      obtain ⟨⟨n, kws⟩, ⟨hmem, hp⟩, rfl⟩ := h
      refine ⟨kws, hmem, ?_⟩
      intro k hk
      simp only [Bool.not_eq_eq_eq_not, Bool.not_true, List.any_eq_false] at hp
      have := hp k hk
      simpa [strContains] using this
    · rintro ⟨kws, hmem, hall⟩
      simp only [check_resume_format, List.mem_map, List.mem_filter]
      refine ⟨(name, kws), ⟨hmem, ?_⟩, rfl⟩
      simp only [Bool.not_eq_eq_eq_not, Bool.not_true, List.any_eq_false]
      intro k hk
      simpa [strContains] using hall k hk
  · exact (List.filter_sublist _).map _
  · intro hall
    have : (resumeSections.filter
        (fun p => !(p.2.any (fun keyword => strContains (pyLower resume_text) keyword)))) =
        resumeSections := by
      apply List.filter_eq_self.mpr
      rintro ⟨n, kws⟩ hmem
      simp only [Bool.not_eq_eq_eq_not, Bool.not_true, List.any_eq_false]
      intro k hk
      simpa [strContains] using hall (n, kws) hmem k hk
    simp only [check_resume_format]
    rw [this]
    rfl

theorem format_checker_missing_sections_witness :
    check_resume_format "" =
      ["Education", "Experience", "Skills", "Certifications", "Projects"] :=
  (format_checker_missing_sections "").2.2 (by decide)

/-- Score arithmetic bound: a ratio of a part count over a whole count,
scaled by 100, stays at most 100. -/
theorem ratio_scaled_le_100 {a b : ℕ} (hab : a ≤ b) (hb : 0 < b) :
    ((a : ℚ) / (b : ℚ)) * 100 ≤ 100 := by
  have hb' : (0 : ℚ) < (b : ℚ) := by exact_mod_cast hb
  have h1 : (a : ℚ) / (b : ℚ) ≤ 1 := by
    rw [div_le_one hb']
    exact_mod_cast hab
  calc ((a : ℚ) / (b : ℚ)) * 100 ≤ 1 * 100 := by
        exact mul_le_mul_of_nonneg_right h1 (by norm_num)
    _ = 100 := one_mul 100

/-- C4: both the skill match percentage and the job match percentage lie
in the closed interval from 0 to 100. -/
theorem scores_within_bounds (nlp : Tagger)
    (resume_text job_role job_description : String) :
    0 ≤ (match_skills nlp resume_text job_role).pct ∧
    (match_skills nlp resume_text job_role).pct ≤ 100 ∧
    0 ≤ job_match_percentage resume_text job_description ∧
    job_match_percentage resume_text job_description ≤ 100 := by
  refine ⟨?_, ?_, ?_, ?_⟩
  · simp only [match_skills]
    split
    · positivity
    · exact le_refl 0
  · simp only [match_skills]
    split
    case isTrue h =>
      exact ratio_scaled_le_100
        (Finset.card_le_card Finset.inter_subset_right) (Finset.card_pos.mpr h)
    case isFalse h => norm_num
  · simp only [job_match_percentage]
    split
    · positivity
    · exact le_refl 0
  · simp only [job_match_percentage]
    split
    case isTrue h =>
      exact ratio_scaled_le_100
        (Finset.card_le_card Finset.inter_subset_right) (Finset.card_pos.mpr h)
    case isFalse h => norm_num

/-- C5: a file whose lower-cased name extension is neither .pdf nor .docx
yields no extracted text, and the interaction loop produces no analysis
for it. -/
theorem unsupported_extension_skipped (pdfPages docxParas : List Nat → List String)
    (nlp : Tagger) (job_description job_role : String) (f : UploadedFile)
    (h1 : pyLower (splitextExt f.name) ≠ ".pdf")
    (h2 : pyLower (splitextExt f.name) ≠ ".docx") :
    extract_text pdfPages docxParas f = none ∧
    process_file pdfPages docxParas nlp job_description job_role f = none := by
  have hext : extract_text pdfPages docxParas f = none := by
    simp only [extract_text]
    rw [if_neg h1, if_neg h2]
  refine ⟨hext, ?_⟩
  simp only [process_file, hext]

theorem unsupported_extension_skipped_witness :
    extract_text (fun _ => []) (fun _ => []) ⟨"resume.txt", []⟩ = none ∧
    process_file (fun _ => []) (fun _ => []) (fun _ => []) "job" "Software Engineer"
      ⟨"resume.txt", []⟩ = none :=
  unsupported_extension_skipped (fun _ => []) (fun _ => []) (fun _ => [])
    "job" "Software Engineer" ⟨"resume.txt", []⟩ (by decide) (by decide)

/-- C6: the Skill Matcher is deterministic: two runs with identical tagger,
identical resume text and identical role return identical matched and
missing skill sets. -/
theorem skill_matcher_deterministic (nlp1 nlp2 : Tagger)
    (text1 text2 role1 role2 : String)
    (hn : nlp1 = nlp2) (ht : text1 = text2) (hr : role1 = role2) :
    (match_skills nlp1 text1 role1).matched = (match_skills nlp2 text2 role2).matched ∧
    (match_skills nlp1 text1 role1).missing = (match_skills nlp2 text2 role2).missing := by
  subst hn; subst ht; subst hr
  exact ⟨rfl, rfl⟩

theorem skill_matcher_deterministic_witness :
    (match_skills (fun _ => []) "text" "Software Engineer").matched =
      (match_skills (fun _ => []) "text" "Software Engineer").matched ∧
    (match_skills (fun _ => []) "text" "Software Engineer").missing =
      (match_skills (fun _ => []) "text" "Software Engineer").missing :=
  skill_matcher_deterministic (fun _ => []) (fun _ => []) "text" "text"
    "Software Engineer" "Software Engineer" rfl rfl rfl

/-- Every role present in the catalog has a nonempty skill set. -/
theorem catalog_role_nonempty {role : String} (h : role ∈ catalogRoles) :
    (predefined_skills role).Nonempty := by
  fin_cases h <;> decide

/-- C7: when the tagged tokens exactly equal a catalog role's skill set the
score is 100 and nothing is missing; when they share no element with the
skill set the score is 0 and nothing is matched. -/
theorem exact_or_disjoint_tokens_score (nlp : Tagger)
    (resume_text job_role : String) :
    (job_role ∈ catalogRoles →
      extract_skills_nlp nlp resume_text = predefined_skills job_role →
      (match_skills nlp resume_text job_role).pct = 100 ∧
      (match_skills nlp resume_text job_role).missing = ∅) ∧
    (extract_skills_nlp nlp resume_text ∩ predefined_skills job_role = ∅ →
      (match_skills nlp resume_text job_role).pct = 0 ∧
      (match_skills nlp resume_text job_role).matched = ∅) := by
  constructor
  · intro hrole hE
    have hne := catalog_role_nonempty hrole
    have hcard : ((predefined_skills job_role).card : ℚ) ≠ 0 := by
      exact_mod_cast Nat.pos_iff_ne_zero.mp (Finset.card_pos.mpr hne)
    constructor
    · simp only [match_skills, hE, Finset.inter_self, if_pos hne]
      rw [div_self hcard, one_mul]
    · simp [match_skills, hE]
  · intro hdisj
    constructor
    · simp only [match_skills, hdisj]
      split <;> simp
    · simp [match_skills, hdisj]

/-- A tagger whose token set is exactly the Software Engineer catalog. -/
def fullCatalogTagger : Tagger := fun _ =>
  ["Python", "Java", "C++", "Machine Learning", "Git", "SQL", "Docker",
   "Kubernetes", "JavaScript", "React", "Node.js"].map (fun s => ⟨s, "PROPN"⟩)

/-- A tagger whose token set shares nothing with any catalog. -/
def unrelatedTagger : Tagger := fun _ => [⟨"banana", "NOUN"⟩]

theorem exact_or_disjoint_tokens_score_witness :
    ((match_skills fullCatalogTagger "resume" "Software Engineer").pct = 100 ∧
     (match_skills fullCatalogTagger "resume" "Software Engineer").missing = ∅) ∧
    ((match_skills unrelatedTagger "resume" "Software Engineer").pct = 0 ∧
     (match_skills unrelatedTagger "resume" "Software Engineer").matched = ∅) :=
  ⟨(exact_or_disjoint_tokens_score fullCatalogTagger "resume" "Software Engineer").1
      (by decide) (by decide),
   (exact_or_disjoint_tokens_score unrelatedTagger "resume" "Software Engineer").2
      (by decide)⟩

/-- C8: when the job-description word set is nonempty and every one of its
words also appears in the resume word set, the job match score is 100. -/
theorem full_job_overlap_scores_100 (resume_text job_description : String)
    (hne : (pySplit (pyLower job_description)).toFinset.Nonempty)
    (hsub : (pySplit (pyLower job_description)).toFinset ⊆
      (pySplit (pyLower resume_text)).toFinset) :
    job_match_percentage resume_text job_description = 100 := by
  have hcard : (((pySplit (pyLower job_description)).toFinset.card : ℚ)) ≠ 0 := by
    exact_mod_cast Nat.pos_iff_ne_zero.mp (Finset.card_pos.mpr hne)
  simp only [job_match_percentage, if_pos hne]
  rw [Finset.inter_eq_right.mpr hsub, div_self hcard, one_mul]

theorem full_job_overlap_scores_100_witness :
    job_match_percentage "python sql developer" "SQL Python" = 100 :=
  full_job_overlap_scores_100 "python sql developer" "SQL Python"
    (by decide) (by decide)

/-- C9: the generated report byte stream is never empty, and at the
concrete input of the spec (role Software Engineer, scores 66.67 and
40.00, matched Python and SQL, missing Docker, no missing sections) the
renderer formats both scores with two decimals, comma-joins the nonempty
collections and substitutes None for the empty one. -/
theorem report_generator_renders :
    (∀ (job_role : String) (s j : ℚ) (m mi secs : List String),
      generate_pdf_bytes job_role s j m mi secs ≠ []) ∧
    generate_pdf "Software Engineer" (6667 / 100) 40 ["Python", "SQL"] ["Docker"] [] =
      ["IntelliScan Resume Analysis Report",
       "Job Role: Software Engineer",
       "Skill Match Score: 66.67%",
       "Job Match Score: 40.00%",
       "Matched Skills:", "Python, SQL",
       "Missing Skills:", "Docker",
       "Missing Resume Sections:", "None"] ∧
    generate_pdf_bytes "Software Engineer" (6667 / 100) 40 ["Python", "SQL"] ["Docker"]
      [] ≠ [] := by
  have h1 : formatTwo (6667 / 100 : ℚ) = "66.67" := by
    unfold formatTwo
    norm_num
    decide
  have h2 : formatTwo (40 : ℚ) = "40.00" := by
    unfold formatTwo
    norm_num
    decide
  refine ⟨?_, ?_, ?_⟩
  · intro job_role s j m mi secs
    simp [generate_pdf_bytes, generate_pdf]
  · simp only [generate_pdf, h1, h2, joinOrNone]
    rfl
  · simp [generate_pdf_bytes, generate_pdf]

/-- C10: for a role present in the catalog, the matched and missing skill
sets are disjoint, their union is the role's full catalog skill set, and
their sizes add up to the catalog size. -/
theorem matched_missing_partition (nlp : Tagger) (resume_text job_role : String)
    (_hrole : job_role ∈ catalogRoles) :
    Disjoint (match_skills nlp resume_text job_role).matched
      (match_skills nlp resume_text job_role).missing ∧
    (match_skills nlp resume_text job_role).matched ∪
      (match_skills nlp resume_text job_role).missing =
      predefined_skills job_role ∧
    (match_skills nlp resume_text job_role).matched.card +
      (match_skills nlp resume_text job_role).missing.card =
      (predefined_skills job_role).card := by
  have hsub : extract_skills_nlp nlp resume_text ∩ predefined_skills job_role ⊆
      predefined_skills job_role := Finset.inter_subset_right
  refine ⟨?_, ?_, ?_⟩
  · simp only [match_skills]
    exact Finset.disjoint_sdiff
  · simp only [match_skills]
    exact Finset.union_sdiff_of_subset hsub
  · simp only [match_skills]
    have := Finset.card_sdiff_add_card_eq_card hsub
    omega

theorem matched_missing_partition_witness :
    Disjoint (match_skills (fun _ => []) "x" "Marketing").matched
      (match_skills (fun _ => []) "x" "Marketing").missing ∧
    (match_skills (fun _ => []) "x" "Marketing").matched ∪
      (match_skills (fun _ => []) "x" "Marketing").missing =
      predefined_skills "Marketing" ∧
    (match_skills (fun _ => []) "x" "Marketing").matched.card +
      (match_skills (fun _ => []) "x" "Marketing").missing.card =
      (predefined_skills "Marketing").card :=
  matched_missing_partition (fun _ => []) "x" "Marketing" (by decide)
